import Mathlib

/-!
Verification of the ingestion / storage / filter / export pipeline of
`app.py` (a Streamlit dashboard backed by PostgreSQL).

The Python source is shallowly embedded below:

* `Row`, `Store` model the `dados` table (`id SERIAL, coluna1 TEXT,
  coluna2 TEXT, valor NUMERIC`); the store keeps insertion order and the
  next value of the `id` sequence.
* `load_csv_to_postgres` models the function of the same name
  (app.py lines 54-77), including PostgreSQL transaction semantics: the
  `DELETE FROM dados` is committed before the insert loop, the inserts are
  committed only after the whole loop, so an insert failure discards the
  uncommitted inserts (the abandoned connection is rolled back) while the
  delete stays committed.  Connection open/close is tracked in the result.
* `get_data` models the function of the same name (lines 80-87):
  `SELECT * FROM dados` through a `RealDictCursor` into `pd.DataFrame`,
  so a non-empty result has columns `id, coluna1, coluna2, valor` and an
  empty result is the column-less empty DataFrame `pd.DataFrame([])`.
* `df_filtrado` models the two selectbox filters of `main`
  (lines 180-184), `to_pdf` models the FPDF renderer (lines 98-115), and
  `login` / `check_role` model the access gate (lines 30-51).
-/

namespace Dashboard

/-- A value of the NUMERIC column `valor`: a rational, or the special
not-a-number value — PostgreSQL NUMERIC stores `NaN`, and pandas reads
missing fields and its missing-value markers as NaN, which the insert
then passes through. -/
inductive NumVal
  | num (q : Rat)
  | nan
  deriving DecidableEq

/-- One data row of the `dados` table: `coluna1 TEXT, coluna2 TEXT,
`valor NUMERIC`. -/
structure Row where
  coluna1 : String
  coluna2 : String
  valor : NumVal
  deriving DecidableEq

/-- The `dados` table: committed rows tagged with their `id`, in insertion
order, together with the next value of the `id SERIAL` sequence (the
sequence is not reset by `DELETE FROM dados` and survives rollbacks). -/
structure Store where
  committed : List (Nat × Row)
  nextId : Nat
  deriving DecidableEq

/-- The failure modes of `load_csv_to_postgres`, all surfaced to the caller
as the spec's `ParseError` taxonomy for malformed ingestion input:
`parseError` is a `pd.read_csv` failure, `indexError` is `row[2]` on a row
with fewer than 3 fields, `numericError` is the PostgreSQL error for a
`valor` that cannot be coerced to NUMERIC. -/
inductive LoadError
  | parseError
  | indexError
  | numericError
  deriving DecidableEq

/-- Outcome of one `load_csv_to_postgres` call: the store as committed when
the call ends, the error raised (if any), and whether the database
connection was opened and whether it was closed on exit. -/
structure LoadResult where
  store : Store
  error : Option LoadError
  connOpened : Bool
  connClosed : Bool
  deriving DecidableEq

/-- The pandas default missing-value markers (the `na_values` of
`pd.read_csv`): a field equal to one of these strings is read as NaN. -/
def naStrings : List String :=
  ["", "#N/A", "#N/A N/A", "#NA", "-1.#IND", "-1.#QNAN", "-NaN", "-nan",
   "1.#IND", "1.#QNAN", "<NA>", "N/A", "NA", "NULL", "NaN", "None",
   "n/a", "nan", "null"]

/-- Blank characters PostgreSQL's NUMERIC reader skips around a value and
the pandas numeric reader tolerates around numerals. -/
def isBlankChar (c : Char) : Bool :=
  c = ' ' || c = '\t'

/-- Strip leading and trailing blanks. -/
def stripBlanks (cs : List Char) : List Char :=
  ((cs.dropWhile isBlankChar).reverse.dropWhile isBlankChar).reverse

/-- Consume a run of decimal digits, returning its value, its digit count
and the remaining characters. -/
def takeDigitsAux (acc k : Nat) : List Char → Nat × Nat × List Char
  | [] => (acc, k, [])
  | c :: rest =>
    if c.isDigit then takeDigitsAux (10 * acc + (c.toNat - 48)) (k + 1) rest
    else (acc, k, c :: rest)

/-- Consume an optional sign; `true` means negative. -/
def takeSign : List Char → Bool × List Char
  | '-' :: rest => (true, rest)
  | '+' :: rest => (false, rest)
  | cs => (false, cs)

/-- Consume the signed digits of an exponent after its `e` marker. -/
def takeExpBody (cs : List Char) : Option (Int × List Char) :=
  let sg := takeSign cs
  let d := takeDigitsAux 0 0 sg.2
  if d.2.1 = 0 then none
  else some (if sg.1 then -(d.1 : Int) else (d.1 : Int), d.2.2)

/-- Consume an optional exponent part. -/
def takeExp : List Char → Option (Int × List Char)
  | 'e' :: rest => takeExpBody rest
  | 'E' :: rest => takeExpBody rest
  | cs => some (0, cs)

/-- Assemble sign, integer part, fractional part (with its digit count)
and exponent into a rational. -/
def buildRat (neg : Bool) (ipart fpart fk : Nat) (ex : Int) : Rat :=
  let base : Rat :=
    if fk = 0 then (ipart : Rat)
    else (ipart : Rat) + (fpart : Rat) / ((10 : Rat) ^ fk)
  let scaled : Rat := if ex = 0 then base else base * (10 : Rat) ^ ex
  if neg then -scaled else scaled

/-- Parse a numeral: an optional sign, digits with an optional decimal
point on either side (at least one digit overall, so `.5`, `5.`, `+1` are
all accepted), and an optional exponent — the common grammar of the
pandas numeric reader and PostgreSQL NUMERIC input, e.g. `1e5`. -/
def parseNumber (cs : List Char) : Option Rat :=
  let sg := takeSign cs
  let ip := takeDigitsAux 0 0 sg.2
  let fr : Nat × Nat × List Char :=
    match ip.2.2 with
    | '.' :: rest => takeDigitsAux 0 0 rest
    | _ => (0, 0, ip.2.2)
  match takeExp fr.2.2 with
  | none => none
  | some ex =>
    if ex.2 = [] ∧ 1 ≤ ip.2.1 + fr.2.1 then
      some (buildRat sg.1 ip.1 fr.1 fr.2.1 ex.1)
    else none

/-- Numeric coercion of the third field, modelling the pandas reading of
the cell followed by the PostgreSQL NUMERIC coercion at insert time: the
pandas missing-value markers and — blanks stripped, case-insensitively —
`NaN` become the NUMERIC NaN; numerals of the sign/digits/point/exponent
grammar become their value; anything else fails.  (`Infinity` is
rejected, as PostgreSQL NUMERIC did before version 14.) -/
def coerceNumeric (s : String) : Option NumVal :=
  if s ∈ naStrings then some NumVal.nan
  else
    let cs := stripBlanks s.data
    if cs.map Char.toLower = "nan".data then some NumVal.nan
    else (parseNumber cs).map NumVal.num

/-- One iteration of the insert loop (app.py line 73-74): take `row[0]`,
`row[1]`, `row[2]` positionally; a row with fewer than 3 fields raises an
index error, a third field that PostgreSQL cannot coerce to NUMERIC raises
a numeric error, otherwise the row to insert is produced.  Fields beyond
the third are ignored, exactly as `row[3], row[4], ...` are never read. -/
def parseRowE : List String → Except LoadError Row
  | c1 :: c2 :: c3 :: _ =>
    match coerceNumeric c3 with
    | some v => Except.ok ⟨c1, c2, v⟩
    | none => Except.error LoadError.numericError
  | _ => Except.error LoadError.indexError

/-- The successfully parsed row, if any. -/
def parseRow? (r : List String) : Option Row :=
  match parseRowE r with
  | Except.ok row => some row
  | Except.error _ => none

/-- The rows of an input file that the insert loop would produce, in input
order (the first line of the file is the header row skipped by
`pd.read_csv`). -/
def parsedRows (file : List (List String)) : List Row :=
  (file.drop 1).filterMap parseRow?

/-- A well-formed 3-column input: a 3-field header line followed by data
rows of exactly 3 fields whose third field is numerically coercible. -/
def wellFormed3 (file : List (List String)) : Bool :=
  match file with
  | [] => false
  | hdr :: rows => hdr.length == 3 && rows.all fun r => (r.length == 3) && (parseRow? r).isSome

/-- `INSERT INTO dados (coluna1, coluna2, valor) VALUES (%s,%s,%s)`:
append the row with the next `id` from the sequence. -/
def Store.insertRow (st : Store) (r : Row) : Store :=
  ⟨st.committed ++ [(st.nextId, r)], st.nextId + 1⟩

/-- The insert loop of `load_csv_to_postgres` (lines 73-74), threading the
transaction-local table state; it stops at the first failing row and
reports that row's error. -/
def insertRows : Store → List (List String) → Store × Option LoadError
  | st, [] => (st, none)
  | st, r :: rs =>
    match parseRowE r with
    | Except.ok row => insertRows (st.insertRow row) rs
    | Except.error e => (st, some e)

/-- Pad a data row shorter than the header to the header's width: pandas
fills the missing trailing fields with NaN.  The `"NaN"` marker string
models that NaN faithfully through the rest of the pipeline: pandas reads
it back as NaN, PostgreSQL NUMERIC accepts it, and a missing text field is
stored as the text `NaN` — the output PostgreSQL's string-category
assignment produces for a float NaN. -/
def padRow (width : Nat) (r : List String) : List String :=
  r ++ List.replicate (width - r.length) "NaN"

/-- `pd.read_csv` (line 55): the first line is the header, the remaining
lines are the data rows.  Rows shorter than the header are padded with
NaN; when every data row has exactly one more field than the header,
pandas promotes each row's first field to the row label, leaving the rest
as the data columns; an empty file or any other ragged shape is a parse
failure. -/
def read_csv (file : List (List String)) : Option (List (List String)) :=
  match file with
  | [] => none
  | hdr :: rows =>
    if rows.all (fun r => decide (r.length ≤ hdr.length)) then
      some (rows.map (padRow hdr.length))
    else if rows.all (fun r => r.length == hdr.length + 1) then
      some (rows.map fun r => r.drop 1)
    else none

/-- End of `load_csv_to_postgres` after the insert loop: on success the
final `conn.commit()` publishes the inserted rows and `conn.close()` runs
(lines 75-77); on an insert error the exception propagates before both, so
the uncommitted inserts are rolled back (only the committed `DELETE`
remains visible, the sequence advance survives) and the connection is
never closed. -/
def finishLoad (st2 : Store) : Option LoadError → LoadResult
  | none => ⟨st2, none, true, true⟩
  | some e => ⟨⟨[], st2.nextId⟩, some e, true, false⟩

/-- `load_csv_to_postgres` (lines 54-77): `pd.read_csv`, then connect,
`CREATE TABLE IF NOT EXISTS` + commit, `DELETE FROM dados` + commit, then
the insert loop, final commit, close.  A read_csv failure happens before
the connection is opened and leaves the store untouched. -/
def load_csv_to_postgres (st : Store) (file : List (List String)) : LoadResult :=
  match read_csv file with
  | none => ⟨st, some LoadError.parseError, false, false⟩
  | some rows =>
    finishLoad (insertRows ⟨[], st.nextId⟩ rows).1 (insertRows ⟨[], st.nextId⟩ rows).2

/-- A cell of the in-memory DataFrame: text, the `id` integer, or the
NUMERIC `valor`. -/
inductive Cell
  | s (v : String)
  | i (v : Nat)
  | n (v : NumVal)
  deriving DecidableEq

/-- The in-memory tabular structure produced by `pd.DataFrame`: named
columns and the rows' cells in column order. -/
structure DataFrame where
  cols : List String
  rows : List (List Cell)
  deriving DecidableEq

/-- The cells of one fetched record, in `SELECT *` column order:
`id, coluna1, coluna2, valor`. -/
def recordCells (p : Nat × Row) : List Cell :=
  [Cell.i p.1, Cell.s p.2.coluna1, Cell.s p.2.coluna2, Cell.n p.2.valor]

/-- The data cells of a row without the `id` column. -/
def rowCells (r : Row) : List Cell :=
  [Cell.s r.coluna1, Cell.s r.coluna2, Cell.n r.valor]

/-- `get_data` (lines 80-87): `SELECT * FROM dados` through a
`RealDictCursor`, then `pd.DataFrame(data)`.  A non-empty result yields the
table's four columns in order; an empty result is `pd.DataFrame([])`,
which has no columns at all. -/
def get_data (st : Store) : DataFrame :=
  if st.committed.isEmpty then ⟨[], []⟩
  else ⟨["id", "coluna1", "coluna2", "valor"], st.committed.map recordCells⟩

/-- Id-tag a list of rows with consecutive ids starting at `n`. -/
def withIds : Nat → List Row → List (Nat × Row)
  | _, [] => []
  | n, r :: rs => (n, r) :: withIds (n + 1) rs

/-- Look up the cell of a row under a named column. -/
def lookupCell (cols : List String) (r : List Cell) (c : String) : Option Cell :=
  (cols.findIdx? fun x => x == c).bind fun i => r.get? i

/-- One pandas boolean-mask filter step
`df[df[c] == v]`: keep the rows whose cell in column `c` equals the
string `v` exactly. -/
def filterEqCol (df : DataFrame) (c v : String) : DataFrame :=
  ⟨df.cols, df.rows.filter fun r => decide (lookupCell df.cols r c = some (Cell.s v))⟩

/-- The filter block of `main` (app.py lines 180-184): copy the data, then
apply the `coluna1` constraint unless it is the sentinel `"Todos"`, then
the `coluna2` constraint likewise. -/
def df_filtrado (df : DataFrame) (f1 f2 : String) : DataFrame :=
  let d1 := if f1 = "Todos" then df else filterEqCol df "coluna1" f1
  if f2 = "Todos" then d1 else filterEqCol d1 "coluna2" f2

/-- Row-retention predicate the filter block implements: each non-sentinel
constraint must hold by exact cell equality, combined by AND. -/
def keepRow (cols : List String) (f1 f2 : String) (r : List Cell) : Bool :=
  (decide (f1 = "Todos") || decide (lookupCell cols r "coluna1" = some (Cell.s f1))) &&
  (decide (f2 = "Todos") || decide (lookupCell cols r "coluna2" = some (Cell.s f2)))

/-- Textual representation of a rational, standing in for Python's
`str()` of the NUMERIC value; like Python's, it only uses ASCII digits,
the minus sign and a separator. -/
def ratText (q : Rat) : String :=
  if q.den = 1 then toString q.num else toString q.num ++ "/" ++ toString q.den

/-- Textual representation of a NUMERIC value; like Python's `str` of a
`Decimal`, it only ever uses ASCII characters (`NaN` for the NaN). -/
def numText : NumVal → String
  | NumVal.num q => ratText q
  | NumVal.nan => "NaN"

/-- `str(item)` for one DataFrame cell (app.py line 112). -/
def showCell : Cell → String
  | Cell.s v => v
  | Cell.i v => toString v
  | Cell.n v => numText v

/-- A string every character of which is Latin-1 encodable, as required by
`.encode('latin1')` on the FPDF output (line 115). -/
def isLatin1 (s : String) : Bool :=
  s.data.all fun c => c.toNat < 256

/-- The failure modes of `to_pdf`: the division `pdf.epw / len(df.columns)`
with zero columns (line 103), and the Latin-1 encoding of the produced
document (line 115). -/
inductive PdfError
  | zeroDivision
  | unicodeEncode
  deriving DecidableEq

/-- The grid document `to_pdf` builds: the uniform column width, the header
cells, and one list of cell texts per data row. -/
structure PdfDoc where
  colWidth : Rat
  headerCells : List String
  bodyCells : List (List String)
  deriving DecidableEq

/-- `pdf.epw`, the effective (printable) page width of the default A4 page
with 10mm margins, in millimetres. -/
def epw : Rat := 190

/-- The cell texts `to_pdf` emits for the data rows (lines 110-113). -/
def pdfBody (df : DataFrame) : List (List String) :=
  df.rows.map fun r => r.map showCell

/-- `to_pdf` (lines 98-115): compute the uniform column width
`pdf.epw / len(df.columns)` — a zero-column table raises a division
error here — then emit the bordered header cells and one bordered cell per
value, and finally encode the document as Latin-1 — any cell text (header
or body) outside Latin-1 raises an encoding error there. -/
def to_pdf (df : DataFrame) : Except PdfError PdfDoc :=
  if df.cols.length = 0 then Except.error PdfError.zeroDivision
  else if df.cols.all isLatin1 && (pdfBody df).all (fun r => r.all isLatin1) then
    Except.ok ⟨epw / (df.cols.length : Rat), df.cols, pdfBody df⟩
  else Except.error PdfError.unicodeEncode

/-- The identity-to-secret map `users` (app.py lines 30-31, default
`USERS_JSON`). -/
def users : List (String × String) :=
  [("admin", "admin_pass"), ("analyst", "analyst_pass"), ("reader", "reader_pass")]

/-- `login` (lines 33-47): an unknown username or a wrong password is
rejected (`st.stop()` ends the run before anything else executes);
otherwise the username becomes the session user. -/
def login (username password : String) : Option String :=
  match users.lookup username with
  | some pw => if pw = password then some username else none
  | none => none

/-- `role_map` (line 50). -/
def role_map : List (String × String) :=
  [("admin", "admin"), ("analyst", "analyst"), ("reader", "reader")]

/-- `check_role` (lines 49-51): `role_map.get(user, "reader")`. -/
def check_role (user : String) : String :=
  (role_map.lookup user).getD "reader"

/-- The access gate as a whole: a Role is produced only for a session that
passed `login`, and it is that identity's fixed role from `check_role`. -/
def authorize (username password : String) : Option String :=
  (login username password).map check_role

/-- The gated operations of `main` (lines 140-204). -/
inductive Op
  | ingest
  | fetchAll
  | filterRows
  | exportExcel
  | exportPdf
  deriving DecidableEq

/-- The operations one run of `main` invokes after the gate, in order
(lines 153-204): `load_csv_to_postgres` only under
`if role == "admin"` and only when a file was uploaded (lines 164-167),
then `get_data`, the filter block, and the two exports. -/
def mainOps (role : String) (fileUploaded : Bool) : List Op :=
  (if role = "admin" ∧ fileUploaded = true then [Op.ingest] else []) ++
  [Op.fetchAll, Op.filterRows, Op.exportExcel, Op.exportPdf]

/-- A whole request: `login` gates `main` — a rejected identity stops the
run before any operation (line 47), an accepted one runs `main` under its
`check_role` role. -/
def appOps (username password : String) (fileUploaded : Bool) : List Op :=
  match login username password with
  | none => []
  | some u => mainOps (check_role u) fileUploaded

end Dashboard

deriving instance DecidableEq for Except

namespace Dashboard

/-- Unfolding of `load_csv_to_postgres` once `read_csv` succeeded. -/
theorem load_eq_of_read (st : Store) (file : List (List String))
    (rows : List (List String)) (h : read_csv file = some rows) :
    load_csv_to_postgres st file =
      finishLoad (insertRows ⟨[], st.nextId⟩ rows).1 (insertRows ⟨[], st.nextId⟩ rows).2 := by
  unfold load_csv_to_postgres
  rw [h]

/-- Padding rows that already have the target width changes nothing. -/
theorem map_pad_id (w : Nat) : ∀ rows : List (List String),
    (∀ r ∈ rows, r.length = w) → rows.map (padRow w) = rows := by
  intro rows
  induction rows with
  | nil => intro _; rfl
  | cons r rs ih =>
    intro h
    have hr : padRow w r = r := by
      simp [padRow, h r (List.mem_cons_self r rs)]
    simp [hr, ih fun x hx => h x (List.mem_cons_of_mem r hx)]

/-- `read_csv` returns the data rows unchanged on a file whose rows all
match the header width. -/
theorem read_csv_some (hdr : List String) (rows : List (List String))
    (h : ∀ r ∈ rows, r.length = hdr.length) :
    read_csv (hdr :: rows) = some rows := by
  have hb : (rows.all fun r => decide (r.length ≤ hdr.length)) = true :=
    List.all_eq_true.mpr fun r hr => by simp [h r hr]
  simp [read_csv, hb, map_pad_id hdr.length rows h]

/-- Unfolding of `load_csv_to_postgres` when `read_csv` fails. -/
theorem load_eq_of_read_none (st : Store) (file : List (List String))
    (h : read_csv file = none) :
    load_csv_to_postgres st file = ⟨st, some LoadError.parseError, false, false⟩ := by
  unfold load_csv_to_postgres
  rw [h]

/-- The insert loop on fully parseable rows inserts exactly the parsed
rows, in order, under consecutive ids, and reports no error. -/
theorem insertRows_ok (rows : List (List String)) : ∀ st : Store,
    (∀ r ∈ rows, (parseRow? r).isSome = true) →
    insertRows st rows =
      (⟨st.committed ++ withIds st.nextId (rows.filterMap parseRow?),
        st.nextId + rows.length⟩, none) := by
  induction rows with
  | nil => intro st _h; simp [insertRows, withIds]
  | cons r rs ih =>
    intro st h
    have hr : (parseRow? r).isSome = true := h r (List.mem_cons_self r rs)
    cases hpe : parseRowE r with
    | error e =>
      rw [parseRow?, hpe] at hr
      simp at hr
    | ok row =>
      have hpr : parseRow? r = some row := by rw [parseRow?, hpe]
      have hrs : ∀ x ∈ rs, (parseRow? x).isSome = true :=
        fun x hx => h x (List.mem_cons_of_mem r hx)
      simp only [insertRows, hpe]
      rw [ih (st.insertRow row) hrs]
      simp only [Store.insertRow, List.filterMap_cons, hpr, withIds, Prod.mk.injEq,
        Store.mk.injEq, List.append_assoc, List.singleton_append, List.length_cons]
      exact ⟨⟨trivial, by omega⟩, trivial⟩

/-- A row failure in the insert loop is an index or numeric error, never a
`read_csv` parse error. -/
theorem parseRowE_err_kind (r : List String) (e : LoadError)
    (h : parseRowE r = Except.error e) :
    e = LoadError.indexError ∨ e = LoadError.numericError := by
  rcases r with _ | ⟨c1, _ | ⟨c2, _ | ⟨c3, rest⟩⟩⟩
  · simp [parseRowE] at h
    exact Or.inl h.symm
  · simp [parseRowE] at h
    exact Or.inl h.symm
  · simp [parseRowE] at h
    exact Or.inl h.symm
  · cases hc : coerceNumeric c3 with
    | none =>
      simp [parseRowE, hc] at h
      exact Or.inr h.symm
    | some v => simp [parseRowE, hc] at h

/-- If some row of the input fails to parse, the insert loop fails with an
index or numeric error. -/
theorem insertRows_err (rows : List (List String)) : ∀ st : Store,
    (∃ r ∈ rows, parseRow? r = none) →
    ∃ e, (insertRows st rows).2 = some e ∧
      (e = LoadError.indexError ∨ e = LoadError.numericError) := by
  induction rows with
  | nil =>
    intro st h
    obtain ⟨r, hr, _⟩ := h
    exact absurd hr (List.not_mem_nil r)
  | cons r rs ih =>
    intro st h
    cases hpe : parseRowE r with
    | error e =>
      refine ⟨e, ?_, parseRowE_err_kind r e hpe⟩
      simp [insertRows, hpe]
    | ok row =>
      obtain ⟨x, hx, hxn⟩ := h
      rcases List.mem_cons.mp hx with rfl | hx2
      · rw [parseRow?, hpe] at hxn
        simp at hxn
      · have hrec := ih (st.insertRow row) ⟨x, hx2, hxn⟩
        simpa [insertRows, hpe] using hrec

/-- After an insert-phase failure the committed table is empty: the
`DELETE` was committed, the partial inserts were not. -/
theorem load_insert_err_committed (st : Store) (file : List (List String)) (e : LoadError)
    (he : (load_csv_to_postgres st file).error = some e) (hne : e ≠ LoadError.parseError) :
    (load_csv_to_postgres st file).store.committed = [] := by
  cases hread : read_csv file with
  | none =>
    rw [load_eq_of_read_none st file hread] at he
    simp at he
    exact absurd he.symm hne
  | some rows =>
    rw [load_eq_of_read st file rows hread] at he ⊢
    cases hsnd : (insertRows ⟨[], st.nextId⟩ rows).2 with
    | none =>
      rw [hsnd] at he
      simp [finishLoad] at he
    | some e2 => simp [finishLoad]

/-- Projecting the fetched cells of id-tagged rows onto the data columns
recovers exactly the rows. -/
theorem withIds_project (l : List Row) : ∀ n : Nat,
    ((withIds n l).map recordCells).map (List.drop 1) = l.map rowCells := by
  induction l with
  | nil => intro n; rfl
  | cons r rs ih =>
    intro n
    simp only [withIds, List.map_cons, recordCells, rowCells, List.drop_succ_cons,
      List.drop_zero, List.cons.injEq]
    exact ⟨trivial, ih (n + 1)⟩

/-- Claim C1, amended: for every well-formed 3-column input, ingest
succeeds and fetchAll returns exactly the parsed rows in input order once
the auto-assigned `id` column is projected away (the fetched table carries
`id, coluna1, coluna2, valor`, not only the three data columns). -/
theorem roundtrip_amended (st : Store) (file : List (List String))
    (h : wellFormed3 file = true) :
    (load_csv_to_postgres st file).error = none ∧
    ((get_data (load_csv_to_postgres st file).store).rows).map (List.drop 1) =
      (parsedRows file).map rowCells := by
  match file with
  | [] => simp [wellFormed3] at h
  | hdr :: rows =>
    simp only [wellFormed3] at h
    rw [Bool.and_eq_true] at h
    obtain ⟨h3, hall⟩ := h
    have hparse : ∀ r ∈ rows, (parseRow? r).isSome = true := by
      intro r hr
      have hx := List.all_eq_true.mp hall r hr
      rw [Bool.and_eq_true] at hx
      exact hx.2
    have hlen : ∀ r ∈ rows, r.length = hdr.length := by
      intro r hr
      have hx := List.all_eq_true.mp hall r hr
      rw [Bool.and_eq_true] at hx
      have h3' : hdr.length = 3 := by simpa using h3
      have hr3' : r.length = 3 := by simpa using hx.1
      omega
    have hread := read_csv_some hdr rows hlen
    rw [load_eq_of_read st (hdr :: rows) rows hread]
    rw [insertRows_ok rows ⟨[], st.nextId⟩ hparse]
    simp only [finishLoad, List.nil_append]
    refine ⟨by simp, ?_⟩
    have hpr : parsedRows (hdr :: rows) = rows.filterMap parseRow? := by
      simp [parsedRows]
    rw [hpr]
    cases hL : rows.filterMap parseRow? with
    | nil => simp [get_data, withIds]
    | cons a as =>
      have hne : (withIds st.nextId (a :: as)).isEmpty = false := rfl
      simp only [get_data, withIds, List.isEmpty_cons, if_neg]
      exact withIds_project (a :: as) st.nextId

/-- Claim C1, counterexample: ingesting one row and fetching does not
return the table with only the three data columns the claim states; the
fetched table also carries the `id` column. -/
theorem roundtrip_counterexample :
    get_data (load_csv_to_postgres ⟨[], 0⟩ [["c1", "c2", "c3"], ["a", "x", "1"]]).store ≠
      ⟨["coluna1", "coluna2", "valor"], [[Cell.s "a", Cell.s "x", Cell.n (NumVal.num 1)]]⟩ ∧
    get_data (load_csv_to_postgres ⟨[], 0⟩ [["c1", "c2", "c3"], ["a", "x", "1"]]).store =
      ⟨["id", "coluna1", "coluna2", "valor"],
        [[Cell.i 0, Cell.s "a", Cell.s "x", Cell.n (NumVal.num 1)]]⟩ :=
  ⟨by decide, by decide⟩

/-- Claim C1, witness: the amended round-trip at a concrete one-row file. -/
theorem roundtrip_witness :
    (load_csv_to_postgres ⟨[], 0⟩ [["c1", "c2", "c3"], ["a", "x", "1"]]).error = none ∧
    ((get_data (load_csv_to_postgres ⟨[], 0⟩
        [["c1", "c2", "c3"], ["a", "x", "1"]]).store).rows).map (List.drop 1) =
      (parsedRows [["c1", "c2", "c3"], ["a", "x", "1"]]).map rowCells :=
  roundtrip_amended ⟨[], 0⟩ [["c1", "c2", "c3"], ["a", "x", "1"]] (by decide)

/-- Claim C6, counterexample: no execution in which the insert loop fails
after `k ≥ 1` successfully inserted rows leaves the table populated with
those first `k` rows — the committed table after any insert-phase failure
is empty, because the inserts were still uncommitted when the error
abandoned the connection while the `DELETE` had already been committed. -/
theorem ingest_not_atomic_counterexample :
    ¬ ∃ (st : Store) (file : List (List String)) (k : Nat),
        1 ≤ k ∧
        ((load_csv_to_postgres st file).error = some LoadError.indexError ∨
         (load_csv_to_postgres st file).error = some LoadError.numericError) ∧
        (load_csv_to_postgres st file).store.committed =
          withIds st.nextId ((parsedRows file).take k) ∧
        (load_csv_to_postgres st file).store.committed ≠ [] := by
  rintro ⟨st, file, k, -, herr, -, hne⟩
  rcases herr with he | he
  · exact hne (load_insert_err_committed st file LoadError.indexError he (by decide))
  · exact hne (load_insert_err_committed st file LoadError.numericError he (by decide))

/-- Claim C6, amended: ingest is indeed not atomic across a failure
mid-insert, but the state left behind is the empty committed table — the
prior contents were already deleted (and committed) and the partially
inserted rows are lost with the uncommitted transaction — so the table is
neither the old table nor the full new one. -/
theorem ingest_not_atomic_amended (st : Store) (file : List (List String))
    (h : (load_csv_to_postgres st file).error = some LoadError.indexError ∨
         (load_csv_to_postgres st file).error = some LoadError.numericError) :
    (load_csv_to_postgres st file).store.committed = [] ∧
    (st.committed ≠ [] → (load_csv_to_postgres st file).store.committed ≠ st.committed) := by
  have hc : (load_csv_to_postgres st file).store.committed = [] := by
    rcases h with he | he
    · exact load_insert_err_committed st file LoadError.indexError he (by decide)
    · exact load_insert_err_committed st file LoadError.numericError he (by decide)
  refine ⟨hc, fun hold heq => ?_⟩
  rw [hc] at heq
  exact hold heq.symm

/-- Claim C6, witness: a load over a non-empty store that fails on its
second row (bad numeric) leaves the committed table empty. -/
theorem ingest_not_atomic_witness :
    (load_csv_to_postgres ⟨[(0, ⟨"old", "old", NumVal.num 5⟩)], 1⟩
        [["c1", "c2", "c3"], ["a", "x", "1"], ["b", "y", "zz"]]).store.committed = [] :=
  (ingest_not_atomic_amended ⟨[(0, ⟨"old", "old", NumVal.num 5⟩)], 1⟩
      [["c1", "c2", "c3"], ["a", "x", "1"], ["b", "y", "zz"]] (Or.inr (by decide))).1

/-- Claim C7, counterexample: two inputs whose column count differs from 3
load without any error, although the claim requires a ParseError for
every such input — a four-column input (the extra column, `row[3]`, is
simply never read) and a table with a two-field data row (pandas pads the
missing third field with NaN, which PostgreSQL NUMERIC accepts). -/
theorem parse_failure_counterexample :
    (load_csv_to_postgres ⟨[], 0⟩ [["h1", "h2", "h3", "h4"], ["a", "x", "1", "z"]]).error =
      none ∧
    (load_csv_to_postgres ⟨[], 0⟩
        [["h1", "h2", "h3", "h4"], ["a", "x", "1", "z"]]).store.committed =
      [(0, ⟨"a", "x", NumVal.num 1⟩)] ∧
    (load_csv_to_postgres ⟨[], 0⟩ [["c1", "c2", "c3"], ["a", "x"]]).error = none ∧
    (load_csv_to_postgres ⟨[], 0⟩ [["c1", "c2", "c3"], ["a", "x"]]).store.committed =
      [(0, ⟨"a", "x", NumVal.nan⟩)] :=
  ⟨by decide, by decide, by decide, by decide⟩

/-- Claim C7, amended: the column count alone does not drive the failure.
For an input pandas can read with this header (no data row wider than the
header; shorter rows are NaN-padded), ingest fails — with the spec's
ParseError family: an index error when the padded row still has fewer
than 3 fields, i.e. the table itself is narrower than 3 columns, or a
numeric error when the row's third value fails NUMERIC coercion —
whenever some data row is bad in that sense; extra columns are ignored
and NaN-padded short rows load successfully. -/
theorem parse_failure_amended (st : Store) (hdr : List String) (rows : List (List String))
    (hshape : ∀ r ∈ rows, r.length ≤ hdr.length)
    (hbad : ∃ r ∈ rows, parseRow? (padRow hdr.length r) = none) :
    (load_csv_to_postgres st (hdr :: rows)).error = some LoadError.indexError ∨
    (load_csv_to_postgres st (hdr :: rows)).error = some LoadError.numericError := by
  have hb : (rows.all fun r => decide (r.length ≤ hdr.length)) = true :=
    List.all_eq_true.mpr fun r hr => by simp [hshape r hr]
  have hread : read_csv (hdr :: rows) = some (rows.map (padRow hdr.length)) := by
    simp [read_csv, hb]
  have hbad2 : ∃ r ∈ rows.map (padRow hdr.length), parseRow? r = none := by
    obtain ⟨r, hr, hn⟩ := hbad
    exact ⟨padRow hdr.length r, List.mem_map_of_mem (padRow hdr.length) hr, hn⟩
  obtain ⟨e, he, hk⟩ :=
    insertRows_err (rows.map (padRow hdr.length)) ⟨[], st.nextId⟩ hbad2
  rw [load_eq_of_read st (hdr :: rows) (rows.map (padRow hdr.length)) hread, he]
  rcases hk with rfl | rfl
  · exact Or.inl (by simp [finishLoad])
  · exact Or.inr (by simp [finishLoad])

/-- Claim C7, witness: the amended failure condition at a concrete
two-column table — even after padding, the rows have fewer than 3 fields,
so `row[2]` fails. -/
theorem parse_failure_witness :
    (load_csv_to_postgres ⟨[], 0⟩ [["h1", "h2"], ["p", "q"]]).error =
      some LoadError.indexError ∨
    (load_csv_to_postgres ⟨[], 0⟩ [["h1", "h2"], ["p", "q"]]).error =
      some LoadError.numericError :=
  parse_failure_amended ⟨[], 0⟩ ["h1", "h2"] [["p", "q"]]
    (by decide) ⟨["p", "q"], by decide, by decide⟩

/-- Claim C9, counterexample: a load that fails mid-insert opens the store
connection, raises, and never closes it — the connection is not released
on this exit path, contrary to the claim. -/
theorem conn_release_counterexample :
    (load_csv_to_postgres ⟨[], 0⟩ [["c1", "c2", "c3"], ["a", "x", "zz"]]).connOpened = true ∧
    (load_csv_to_postgres ⟨[], 0⟩ [["c1", "c2", "c3"], ["a", "x", "zz"]]).error ≠ none ∧
    (load_csv_to_postgres ⟨[], 0⟩ [["c1", "c2", "c3"], ["a", "x", "zz"]]).connClosed = false :=
  ⟨by decide, by decide, by decide⟩

/-- Claim C9, amended: once ingest has opened its connection, the
connection is closed exactly on the success path; an error raised
mid-operation leaves it unreleased (a leak). -/
theorem conn_release_amended (st : Store) (file : List (List String))
    (h : (load_csv_to_postgres st file).connOpened = true) :
    ((load_csv_to_postgres st file).connClosed = true ↔
      (load_csv_to_postgres st file).error = none) := by
  cases hread : read_csv file with
  | none =>
    rw [load_eq_of_read_none st file hread] at h
    simp at h
  | some rows =>
    rw [load_eq_of_read st file rows hread]
    cases hsnd : (insertRows ⟨[], st.nextId⟩ rows).2 with
    | none => simp [finishLoad]
    | some e => simp [finishLoad]

/-- Claim C9, witness: on a concrete successful load the connection was
closed and no error was raised. -/
theorem conn_release_witness :
    (load_csv_to_postgres ⟨[], 0⟩ [["c1", "c2", "c3"], ["a", "x", "1"]]).connClosed = true ↔
    (load_csv_to_postgres ⟨[], 0⟩ [["c1", "c2", "c3"], ["a", "x", "1"]]).error = none :=
  conn_release_amended ⟨[], 0⟩ [["c1", "c2", "c3"], ["a", "x", "1"]] (by decide)

/-- The rows the filter block keeps are exactly those retained by
`keepRow` over the original table. -/
theorem df_filtrado_rows (df : DataFrame) (f1 f2 : String) :
    (df_filtrado df f1 f2).rows = df.rows.filter (fun r => keepRow df.cols f1 f2 r) := by
  by_cases e1 : f1 = "Todos" <;> by_cases e2 : f2 = "Todos" <;>
    simp [df_filtrado, filterEqCol, keepRow, e1, e2, List.filter_filter, Bool.and_comm]

/-- Claim C2: the filter block retains exactly the rows whose cell in each
constrained (non-sentinel) column equals the constraint value by exact
equality, the two constraints combined by AND; it never changes the
columns; and a constraint value that occurs nowhere in the table yields
the empty view, not an error.  (Stated for tables carrying the `coluna1`
and `coluna2` columns, the only ones the block is applied to.) -/
theorem filter_apply_spec (df : DataFrame) (f1 f2 : String)
    (_hc1 : "coluna1" ∈ df.cols) (_hc2 : "coluna2" ∈ df.cols) :
    (df_filtrado df f1 f2).cols = df.cols ∧
    (df_filtrado df f1 f2).rows = df.rows.filter (fun r => keepRow df.cols f1 f2 r) ∧
    (f1 ≠ "Todos" →
      (∀ r ∈ df.rows, lookupCell df.cols r "coluna1" ≠ some (Cell.s f1)) →
      (df_filtrado df f1 f2).rows = []) := by
  refine ⟨?_, df_filtrado_rows df f1 f2, ?_⟩
  · by_cases e1 : f1 = "Todos" <;> by_cases e2 : f2 = "Todos" <;>
      simp [df_filtrado, filterEqCol, e1, e2]
  · intro hne hnone
    rw [df_filtrado_rows df f1 f2]
    apply List.filter_eq_nil_iff.mpr
    intro r hr
    simp [keepRow, hne, hnone r hr]

/-- Claim C2, witness: a constraint value absent from the table yields the
empty view. -/
theorem filter_apply_witness :
    (df_filtrado ⟨["coluna1", "coluna2"], [[Cell.s "a", Cell.s "x"]]⟩ "zzz" "Todos").rows =
      [] :=
  (filter_apply_spec ⟨["coluna1", "coluna2"], [[Cell.s "a", Cell.s "x"]]⟩ "zzz" "Todos"
      (by decide) (by decide)).2.2 (by decide) (by decide)

/-- Claim C3, counterexample: fetchAll's columns are not exactly
`coluna1, coluna2, valor` — an empty store yields a table with no columns
at all, and a non-empty store yields the four columns including `id`. -/
theorem fetchAll_columns_counterexample :
    (get_data ⟨[], 0⟩).cols = [] ∧
    (get_data ⟨[(0, ⟨"a", "x", NumVal.num 1⟩)], 1⟩).cols = ["id", "coluna1", "coluna2", "valor"] ∧
    (["id", "coluna1", "coluna2", "valor"] : List String) ≠
      ["coluna1", "coluna2", "valor"] ∧
    (([] : List String) ≠ ["coluna1", "coluna2", "valor"]) :=
  ⟨by decide, by decide, by decide, by decide⟩

/-- Claim C3, amended: fetchAll reads every record in the store's
insertion order, one row of cells per record; a non-empty store yields the
columns `id, coluna1, coluna2, valor`, while an empty store yields the
valid column-less empty table (not an error). -/
theorem fetchAll_columns_amended (st : Store) :
    (get_data st).rows = st.committed.map recordCells ∧
    (st.committed = [] → get_data st = ⟨[], []⟩) ∧
    (st.committed ≠ [] → (get_data st).cols = ["id", "coluna1", "coluna2", "valor"]) := by
  refine ⟨?_, ?_, ?_⟩
  · cases h : st.committed with
    | nil => simp [get_data, h]
    | cons a as => simp [get_data, h]
  · intro h
    simp [get_data, h]
  · intro h
    cases hh : st.committed with
    | nil => exact absurd hh h
    | cons a as => simp [get_data, hh]

/-- Claim C3, witness: the amended statement at a concrete one-record
store. -/
theorem fetchAll_columns_witness :
    (get_data ⟨[(7, ⟨"b", "y", NumVal.num 2⟩)], 8⟩).cols = ["id", "coluna1", "coluna2", "valor"] :=
  (fetchAll_columns_amended ⟨[(7, ⟨"b", "y", NumVal.num 2⟩)], 8⟩).2.2 (by decide)

/-- Claim C4: for every identity whose role is reader or analyst, no run
of `main` invokes the ingestion operation — `load_csv_to_postgres` is
reachable only under the admin role. -/
theorem ingest_admin_only (u : String) (f : Bool)
    (h : check_role u = "reader" ∨ check_role u = "analyst") :
    Op.ingest ∉ mainOps (check_role u) f := by
  rcases h with h | h <;> rw [h] <;> cases f <;> decide

/-- Claim C4, witness: the analyst identity never reaches ingestion. -/
theorem ingest_admin_only_witness :
    Op.ingest ∉ mainOps (check_role "analyst") true :=
  ingest_admin_only "analyst" true (Or.inr (by decide))

/-- Claim C5: the gate maps each known identity (authenticated with its
secret) to its fixed role; any role it returns belongs to a correctly
authenticated known identity; and an unknown identity is rejected — no
role is produced and no operation, in particular no ingestion, is ever
reached. -/
theorem authorize_gate (u p : String) (f : Bool) :
    (∀ r, authorize u p = some r → users.lookup u = some p ∧ r = check_role u) ∧
    (∀ pw, users.lookup u = some pw → authorize u pw = some (check_role u)) ∧
    (users.lookup u = none → authorize u p = none ∧ Op.ingest ∉ appOps u p f) := by
  refine ⟨?_, ?_, ?_⟩
  · intro r hr
    cases hl : users.lookup u with
    | none =>
      simp only [authorize, login, hl] at hr
      simp at hr
    | some pw =>
      simp only [authorize, login, hl] at hr
      by_cases hpw : pw = p
      · subst hpw
        simp at hr
        exact ⟨rfl, hr.symm⟩
      · rw [if_neg hpw] at hr
        simp at hr
  · intro pw hl
    simp [authorize, login, hl]
  · intro hl
    constructor
    · simp [authorize, login, hl]
    · simp [appOps, login, hl]

/-- Claim C5, witness: a concrete unknown identity is rejected and reaches
no ingestion. -/
theorem authorize_gate_witness :
    authorize "mallory" "pw" = none ∧ Op.ingest ∉ appOps "mallory" "pw" true :=
  (authorize_gate "mallory" "pw" true).2.2 (by decide)

/-- Claim C8, counterexample: rendering the empty table produced by
fetchAll on an empty store does throw — the table has no columns and the
column-width division `pdf.epw / len(df.columns)` fails. -/
theorem pdf_empty_counterexample :
    to_pdf (get_data ⟨[], 0⟩) = Except.error PdfError.zeroDivision := by decide

/-- Claim C8, amended: the grid-document renderer does not throw for a
zero-row table that has at least one column (with Latin-1 column names, as
all tables of this program have): it returns the header-only document.
The zero-column empty-store table instead raises a division error. -/
theorem pdf_empty_amended (df : DataFrame) (h0 : df.rows = []) (h1 : df.cols ≠ [])
    (h2 : df.cols.all isLatin1 = true) :
    to_pdf df = Except.ok ⟨epw / (df.cols.length : Rat), df.cols, []⟩ := by
  have hlen : ¬ df.cols.length = 0 := fun hc => h1 (List.length_eq_zero.mp hc)
  have hbody : pdfBody df = [] := by simp [pdfBody, h0]
  unfold to_pdf
  rw [if_neg hlen, hbody]
  simp [h2]

/-- Claim C8, witness: the header-only render of a concrete zero-row
one-column table. -/
theorem pdf_empty_witness :
    to_pdf ⟨["coluna1"], []⟩ =
      Except.ok ⟨epw / ((1 : Nat) : Rat), ["coluna1"], []⟩ :=
  pdf_empty_amended ⟨["coluna1"], []⟩ rfl (by decide) (by decide)

/-- Claim C10: the grid-document renderer returns a document only when
every emitted cell text (header and body) is Latin-1 encodable; a table
with any cell text outside Latin-1 (given it has columns at all) raises
the encoding error instead of producing bytes. -/
theorem pdf_latin1 (df : DataFrame) :
    (∀ doc, to_pdf df = Except.ok doc →
      df.cols.all isLatin1 = true ∧
      (pdfBody df).all (fun r => r.all isLatin1) = true) ∧
    (df.cols ≠ [] → (pdfBody df).all (fun r => r.all isLatin1) = false →
      to_pdf df = Except.error PdfError.unicodeEncode) := by
  constructor
  · intro doc hdoc
    unfold to_pdf at hdoc
    by_cases hlen : df.cols.length = 0
    · rw [if_pos hlen] at hdoc
      simp at hdoc
    · rw [if_neg hlen] at hdoc
      by_cases hcond :
          (df.cols.all isLatin1 && (pdfBody df).all fun r => r.all isLatin1) = true
      · rw [Bool.and_eq_true] at hcond
        exact hcond
      · rw [if_neg hcond] at hdoc
        simp at hdoc
  · intro h1 h2
    have hlen : ¬ df.cols.length = 0 := fun hc => h1 (List.length_eq_zero.mp hc)
    unfold to_pdf
    rw [if_neg hlen, h2]
    simp

/-- Claim C10, witness: a table holding a character outside Latin-1 raises
the encoding error. -/
theorem pdf_latin1_witness :
    to_pdf ⟨["coluna1"], [[Cell.s "Ω"]]⟩ = Except.error PdfError.unicodeEncode :=
  (pdf_latin1 ⟨["coluna1"], [[Cell.s "Ω"]]⟩).2 (by decide) (by decide)

end Dashboard
